import Mathlib

/-
  Shallow embedding of the Mccookies rewards application (src/app.py).

  The application is a Flask CRUD layer over three tables (users, tasks,
  task_types) with a cookie-signed session.  The embedding models the
  database as Lean lists of records, the Flask session as an optional
  user id, and each route handler as a pure function
  AppState -> arguments -> AppState x Response.

  Modelling conventions, each noted at the definition it concerns:
  - DateTime columns (created_at, completed_at) are wall-clock values
    produced by datetime.utcnow; no handler branches on them, so they are
    omitted and recency is represented by list insertion order.
  - bcrypt is an opaque one-way primitive per the spec; it is modelled by
    an injective tagging function hashPassword.
  - Autoincrement primary keys are modelled by nextUserId / nextTaskId
    counters carried in the state.
-/

namespace Mccookies

/-- Row of the users table (class User in src/app.py).  The created_at
column (datetime.utcnow default) is omitted: no handler reads it except
as an opaque echo in to_dict, and no claim concerns it. -/
structure UserRec where
  id : Int
  email : String
  username : String
  password_hash : String
  cookies_earned : Int
  total_tasks_completed : Int
  is_active : Bool
  deriving DecidableEq, Repr

/-- Row of the tasks table (class Task in src/app.py).  completed_at and
created_at (datetime.utcnow defaults) are omitted; recency is list
insertion order. -/
structure TaskRec where
  id : Int
  user_id : Int
  task_type : String
  task_name : String
  task_url : String
  cookies_reward : Int
  status : String
  deriving DecidableEq, Repr

/-- Row of the task_types table (class TaskType in src/app.py);
created_at omitted as above. -/
structure TaskTypeRec where
  id : Int
  name : String
  description : String
  cookies_reward : Int
  task_url : String
  is_active : Bool
  deriving DecidableEq, Repr

/-- Value of a JSON field in a request body, as Python receives it from
request.get_json().  Integral numbers suffice for this API (task type ids
are integer primary keys). -/
inductive JValue where
  | null
  | bool (b : Bool)
  | num (n : Int)
  | str (s : String)
  deriving DecidableEq, Repr

/-- Python truthiness of a JSON value: None, False, 0 and the empty
string are falsy.  This is what the source's `if not task_type_id` tests. -/
def pyFalsy : JValue → Bool
  | JValue.null => true
  | JValue.bool b => !b
  | JValue.num n => n == 0
  | JValue.str t => t == ""

/-- Truthiness test covering an absent key: data.get returns None when the
key is missing, which is falsy. -/
def pyOptFalsy : Option JValue → Bool
  | none => true
  | some v => pyFalsy v

/-- JSON body of a POST /complete_task request.  task_type_id is the raw
JSON value (absent key modelled as none); task_url is the optional string
the handler defaults to "" via data.get with a default. -/
structure ReqBody where
  task_type_id : Option JValue
  task_url : Option String
  deriving DecidableEq, Repr

/-- JSON payload of a response produced by the handlers. -/
inductive JsonBody where
  | err (msg : String)
  | taskOk (message : String) (cookies_earned total_cookies total_tasks : Int)
  | userDict (id : Int) (email username : String)
      (cookies_earned total_tasks_completed : Int)
  deriving DecidableEq, Repr

/-- Observable outcome of a handler: a flash-then-redirect to a named
endpoint, a rendered login form with a flash message, the rendered
dashboard together with the context handed to the external template, or a
JSON body with an HTTP status code. -/
inductive Response where
  | redirect (endpoint flashMsg : String)
  | renderLogin (flashMsg : String)
  | renderDashboard (user : UserRec) (available_tasks : List TaskTypeRec)
      (recent_tasks : List TaskRec)
  | json (body : JsonBody) (status : Nat)
  deriving DecidableEq, Repr

/-- Whole-application state: the three tables, the session (which stores
only the key user_id, as in the source), and the autoincrement counters
of the two tables that receive inserts. -/
structure AppState where
  users : List UserRec
  tasks : List TaskRec
  taskTypes : List TaskTypeRec
  session : Option Int
  nextUserId : Int
  nextTaskId : Int
  deriving DecidableEq, Repr

/-- Model of bcrypt hashing: an injective tag.  The spec treats the
password primitive as an opaque one-way verify/hash capability; no claim
depends on its cryptographic properties. -/
def hashPassword (p : String) : String := "bcrypt$" ++ p

/-- Model of User.check_password: verify a password against a stored hash. -/
def checkPassword (p h : String) : Bool := hashPassword p == h

/-- User.query.get(uid): primary-key lookup in the users table. -/
def findUser (s : AppState) (uid : Int) : Option UserRec :=
  s.users.find? (fun u => u.id == uid)

/-- User.query.filter_by(email=email).first(). -/
def findByEmail (s : AppState) (email : String) : Option UserRec :=
  s.users.find? (fun u => u.email == email)

/-- TaskType.query.get(task_type_id): primary-key lookup.  The handler
only reaches this with a truthy JSON value; a non-integer key resolves to
no row. -/
def lookupTaskType (s : AppState) : JValue → Option TaskTypeRec
  | JValue.num n => s.taskTypes.find? (fun tt => tt.id == n)
  | _ => none

/-- POST /register handler (first register function in src/app.py).
Absent form fields arrive as the empty string, matching Python falsiness
of None and "".  Success inserts the user with both counters at 0 and
sets the session to the new id. -/
def register (s : AppState) (email username password : String) :
    AppState × Response :=
  if email == "" || username == "" || password == "" then
    (s, Response.redirect "register" "All fields are required!")
  else
    match s.users.find? (fun u => u.email == email || u.username == username) with
    | some _ =>
        (s, Response.redirect "register" "User with this email or username already exists!")
    | none =>
        let u : UserRec :=
          { id := s.nextUserId, email := email, username := username,
            password_hash := hashPassword password, cookies_earned := 0,
            total_tasks_completed := 0, is_active := true }
        ({ s with
            users := s.users ++ [u],
            nextUserId := s.nextUserId + 1,
            session := some u.id },
         Response.redirect "dashboard" "Account created successfully!")

/-- POST login handler.  In the source this is the second, duplicate
function named register (the login handler of spec section 4.1): it looks
the user up by email and on a missing user or failed password check
flashes the same generic message and re-renders the login form. -/
def login (s : AppState) (email password : String) : AppState × Response :=
  if email == "" || password == "" then
    (s, Response.redirect "login" "Email and password are required!")
  else
    match s.users.find? (fun u => u.email == email) with
    | some u =>
        if checkPassword password u.password_hash then
          ({ s with session := some u.id },
           Response.redirect "dashboard" "Login successful!")
        else (s, Response.renderLogin "Invalid email or password!")
    | none => (s, Response.renderLogin "Invalid email or password!")

/-- GET /logout handler: session.clear() then flash and redirect home. -/
def logout (s : AppState) : AppState × Response :=
  ({ s with session := none },
   Response.redirect "index" "You have been logged out.")

/-- Recent-completions query of the dashboard:
Task.query.filter_by(user_id=...).order_by(completed_at desc).limit(10).
Tasks are appended in completion order, so descending completion time is
the reverse of insertion order. -/
def recentTasks (s : AppState) (uid : Int) : List TaskRec :=
  ((s.tasks.filter (fun t => t.user_id == uid)).reverse).take 10

/-- GET /dashboard handler.  With no session it flashes and redirects to
login; with a stale session it clears the session and redirects to login;
otherwise it renders the dashboard template with the user record, the
active task types and the ten most recent completions. -/
def dashboard (s : AppState) : AppState × Response :=
  match s.session with
  | none => (s, Response.redirect "login" "Please log in to access dashboard.")
  | some uid =>
    match findUser s uid with
    | none =>
        ({ s with session := none },
         Response.redirect "login" "User not found. Please log in again.")
    | some u =>
        (s, Response.renderDashboard u
          (s.taskTypes.filter (fun tt => tt.is_active))
          (recentTasks s u.id))

/-- POST /complete_task handler.  Checks, in source order: session key
present; truthy task_type_id; task type resolvable and active; user
resolvable.  On success it inserts the snapshot Task row, bumps the two
user counters, and reports the granted reward and the new totals.  The
user update maps over the table replacing the row with the found user's
primary key, which is unique. -/
def complete_task (s : AppState) (body : ReqBody) : AppState × Response :=
  match s.session with
  | none => (s, Response.json (JsonBody.err "Not authenticated") 401)
  | some uid =>
    if pyOptFalsy body.task_type_id then
      (s, Response.json (JsonBody.err "Task type is required") 400)
    else
      match lookupTaskType s (body.task_type_id.getD JValue.null) with
      | none => (s, Response.json (JsonBody.err "Invalid task type") 400)
      | some tt =>
        if !tt.is_active then
          (s, Response.json (JsonBody.err "Invalid task type") 400)
        else
          match findUser s uid with
          | none => (s, Response.json (JsonBody.err "User not found") 401)
          | some u =>
            let task : TaskRec :=
              { id := s.nextTaskId, user_id := u.id, task_type := tt.name,
                task_name := tt.description, task_url := body.task_url.getD "",
                cookies_reward := tt.cookies_reward, status := "completed" }
            let u2 : UserRec :=
              { u with
                cookies_earned := u.cookies_earned + tt.cookies_reward,
                total_tasks_completed := u.total_tasks_completed + 1 }
            ({ s with
                users := s.users.map (fun w => if w.id == u.id then u2 else w),
                tasks := s.tasks ++ [task],
                nextTaskId := s.nextTaskId + 1 },
             Response.json (JsonBody.taskOk "Task completed successfully!"
               tt.cookies_reward u2.cookies_earned u2.total_tasks_completed) 200)

/-- GET /user_stats handler: the to_dict projection of the session's user
(id, email, username and the two counters; created_at omitted as an
opaque timestamp). -/
def user_stats (s : AppState) : AppState × Response :=
  match s.session with
  | none => (s, Response.json (JsonBody.err "Not authenticated") 401)
  | some uid =>
    match findUser s uid with
    | none => (s, Response.json (JsonBody.err "User not found") 401)
    | some u =>
        (s, Response.json (JsonBody.userDict u.id u.email u.username
          u.cookies_earned u.total_tasks_completed) 200)

/-- One user-facing operation of the system, for the reachability relation. -/
inductive Op where
  | register (email username password : String)
  | login (email password : String)
  | completeTask (body : ReqBody)
  | logout
  deriving DecidableEq, Repr

/-- State transition of one operation (the response is discarded). -/
def applyOp (s : AppState) : Op → AppState
  | Op.register e n p => (register s e n p).1
  | Op.login e p => (login s e p).1
  | Op.completeTask b => (complete_task s b).1
  | Op.logout => (logout s).1

/-- Store with no users, no tasks and no session; the task-type catalog
(seeded once at bootstrap by init_db) is arbitrary. -/
def initState (tts : List TaskTypeRec) : AppState :=
  { users := [], tasks := [], taskTypes := tts, session := none,
    nextUserId := 1, nextTaskId := 1 }

/-- States reachable from a freshly bootstrapped store by any sequence of
register, login, complete_task and logout operations. -/
inductive Reachable : AppState → Prop where
  | init (tts : List TaskTypeRec) : Reachable (initState tts)
  | step (s : AppState) (op : Op) : Reachable s → Reachable (applyOp s op)

/-- Sum of cookies_reward over the Task rows owned by a given user id. -/
def sumRewards (tasks : List TaskRec) (uid : Int) : Int :=
  ((tasks.filter (fun t => t.user_id == uid)).map TaskRec.cookies_reward).sum

/-- Internal well-formedness of a state: user ids are below the
autoincrement counter and pairwise distinct, task owner ids are below the
counter, and every user's cookies_earned equals the sum of rewards over
the tasks it owns. -/
def GoodState (s : AppState) : Prop :=
  (∀ u ∈ s.users, u.id < s.nextUserId) ∧
  (s.users.map UserRec.id).Nodup ∧
  (∀ t ∈ s.tasks, t.user_id < s.nextUserId) ∧
  (∀ u ∈ s.users, u.cookies_earned = sumRewards s.tasks u.id)

/-- Rewrite every user's is_active flag according to an arbitrary
id-indexed assignment, leaving every other column and table untouched. -/
def setActive (f : Int → Bool) (s : AppState) : AppState :=
  { s with users := s.users.map (fun u => { u with is_active := f u.id }) }

/-- Push an is_active reassignment through a response: only the user
record forwarded to the dashboard template carries the flag. -/
def mapRespActive (f : Int → Bool) : Response → Response
  | Response.renderDashboard u a r =>
      Response.renderDashboard { u with is_active := f u.id } a r
  | r => r

/-- Seeded sample task type (the survey entry of init_db, reward 10). -/
def sampleTT : TaskTypeRec :=
  { id := 1, name := "survey", description := "Complete Online Survey",
    cookies_reward := 10, task_url := "", is_active := true }

/-- An inactive catalog entry, for exercising the invalid-task-type path. -/
def retiredTT : TaskTypeRec :=
  { id := 2, name := "retired", description := "Retired Task",
    cookies_reward := 5, task_url := "", is_active := false }

/-- Concrete reachable scenario: bootstrap with the survey task type,
register alice, then complete the survey once. -/
def witState : AppState :=
  applyOp (applyOp (initState [sampleTT])
    (Op.register "a@x.com" "alice" "pw123"))
    (Op.completeTask { task_type_id := some (JValue.num 1), task_url := some "" })

/-- State whose session points at a user id that no longer resolves. -/
def staleState : AppState :=
  { users := [], tasks := [], taskTypes := [sampleTT], session := some 7,
    nextUserId := 1, nextTaskId := 1 }

/-- Request body naming the active sample task type. -/
def surveyBody : ReqBody :=
  { task_type_id := some (JValue.num 1), task_url := some "" }

/-- State reached by bootstrapping with the survey task type and
registering alice; her session is live and her counters are at zero. -/
def regState : AppState :=
  applyOp (initState [sampleTT]) (Op.register "a@x.com" "alice" "pw123")

/-- Record of the user alice right after registration. -/
def aliceRec : UserRec :=
  { id := 1, email := "a@x.com", username := "alice",
    password_hash := hashPassword "pw123", cookies_earned := 0,
    total_tasks_completed := 0, is_active := true }

end Mccookies

namespace Mccookies

theorem find?_update_user (l : List UserRec) (uid : Int) (u u2 : UserRec)
    (h : l.find? (fun w => w.id == uid) = some u) (hid : u2.id = u.id) :
    (l.map (fun w => if w.id == u.id then u2 else w)).find?
      (fun w => w.id == uid) = some u2 := by
  have hu : u.id = uid := by simpa using List.find?_some h
  induction l with
  | nil => simp at h
  | cons a l ih =>
    by_cases ha : a.id = uid
    · have hau : a = u := by simpa [List.find?_cons, ha] using h
      subst hau
      simp [List.find?_cons, hid, ha]
    · have h2 : l.find? (fun w => w.id == uid) = some u := by
        simpa [List.find?_cons, ha] using h
      have hne : a.id ≠ u.id := fun e => ha (e.trans hu)
      simp only [List.map_cons]
      have hhead : (if a.id == u.id then u2 else a) = a := by simp [hne]
      rw [hhead]
      simpa [List.find?_cons, ha] using ih h2

theorem sumRewards_append (ts : List TaskRec) (t : TaskRec) (uid : Int) :
    sumRewards (ts ++ [t]) uid =
      sumRewards ts uid + (if t.user_id = uid then t.cookies_reward else 0) := by
  unfold sumRewards
  rw [List.filter_append]
  by_cases h : t.user_id = uid
  · simp [h]
  · simp [h]

theorem sumRewards_eq_zero (ts : List TaskRec) (uid : Int)
    (h : ∀ t ∈ ts, t.user_id ≠ uid) : sumRewards ts uid = 0 := by
  unfold sumRewards
  have hnil : ts.filter (fun t => t.user_id == uid) = [] := by
    rw [List.filter_eq_nil_iff]
    intro t ht
    simpa using h t ht
  simp [hnil]

/-- C6: for every complete_task call with a session present whose request
body does not supply task_type_id, the call fails with the validation
error "Task type is required" at status 400 and the state is unchanged. -/
theorem complete_task_missing_type (s : AppState) (b : ReqBody) (uid : Int)
    (hs : s.session = some uid) (hb : b.task_type_id = none) :
    complete_task s b =
      (s, Response.json (JsonBody.err "Task type is required") 400) := by
  unfold complete_task
  rw [hs, hb]
  simp [pyOptFalsy]

theorem complete_task_missing_type_witness :
    witState.session = some 1 ∧
    complete_task witState { task_type_id := none, task_url := none } =
      (witState, Response.json (JsonBody.err "Task type is required") 400) :=
  ⟨rfl, complete_task_missing_type witState
    { task_type_id := none, task_url := none } 1 rfl rfl⟩

/-- C9: a falsy task_type_id (JSON null, false, 0 or the empty string)
takes the same required-field branch as an absent one: the handler
answers "Task type is required" at 400 without looking a TaskType up, and
the call is indistinguishable from one with the key absent. -/
theorem complete_task_falsy_type (s : AppState) (b : ReqBody) (uid : Int)
    (v : JValue) (hs : s.session = some uid) (hb : b.task_type_id = some v)
    (hv : pyFalsy v = true) :
    complete_task s b =
      (s, Response.json (JsonBody.err "Task type is required") 400) ∧
    complete_task s b =
      complete_task s { task_type_id := none, task_url := b.task_url } := by
  have h1 : complete_task s b =
      (s, Response.json (JsonBody.err "Task type is required") 400) := by
    unfold complete_task
    rw [hs, hb]
    simp [pyOptFalsy, hv]
  have h2 : complete_task s { task_type_id := none, task_url := b.task_url } =
      (s, Response.json (JsonBody.err "Task type is required") 400) := by
    unfold complete_task
    rw [hs]
    simp [pyOptFalsy]
  exact ⟨h1, h1.trans h2.symm⟩

theorem complete_task_falsy_type_witness :
    witState.session = some 1 ∧ pyFalsy (JValue.num 0) = true ∧
    (complete_task witState { task_type_id := some (JValue.num 0), task_url := none } =
      (witState, Response.json (JsonBody.err "Task type is required") 400) ∧
     complete_task witState { task_type_id := some (JValue.num 0), task_url := none } =
      complete_task witState { task_type_id := none, task_url := none }) :=
  ⟨rfl, rfl, complete_task_falsy_type witState
    { task_type_id := some (JValue.num 0), task_url := none } 1
    (JValue.num 0) rfl rfl rfl⟩

/-- C3: with a session present and a truthy task_type_id, an id that
resolves to no TaskType and an id that resolves to an inactive TaskType
fail identically: same "Invalid task type" message, same 400 status, and
the state (tasks, users, session) is unchanged. -/
theorem complete_task_invalid_type (s : AppState) (b : ReqBody) (uid : Int)
    (hs : s.session = some uid) (hf : pyOptFalsy b.task_type_id = false)
    (hbad : lookupTaskType s (b.task_type_id.getD JValue.null) = none ∨
      ∃ tt, lookupTaskType s (b.task_type_id.getD JValue.null) = some tt ∧
        tt.is_active = false) :
    complete_task s b =
      (s, Response.json (JsonBody.err "Invalid task type") 400) := by
  unfold complete_task
  rw [hs]
  cases hbad with
  | inl hnone => simp [hf, hnone]
  | inr hsome =>
    obtain ⟨tt, htt, hact⟩ := hsome
    simp [hf, htt, hact]

theorem complete_task_invalid_type_witness :
    witState.session = some 1 ∧
    pyOptFalsy (some (JValue.num 99) : Option JValue) = false ∧
    lookupTaskType witState (JValue.num 99) = none ∧
    complete_task witState { task_type_id := some (JValue.num 99), task_url := none } =
      (witState, Response.json (JsonBody.err "Invalid task type") 400) :=
  ⟨rfl, rfl, rfl, complete_task_invalid_type witState
    { task_type_id := some (JValue.num 99), task_url := none } 1 rfl rfl
    (Or.inl rfl)⟩

end Mccookies

namespace Mccookies

/-- C5: a register call with non-empty fields fails with the conflict
error and leaves the state unchanged (in particular no second User row)
whenever some existing user already has the same email or the same
username, decided by the one combined case-sensitive lookup. -/
theorem register_conflict (s : AppState) (e n p : String)
    (he : e ≠ "") (hn : n ≠ "") (hp : p ≠ "")
    (hdup : ∃ u ∈ s.users, u.email = e ∨ u.username = n) :
    register s e n p =
      (s, Response.redirect "register"
        "User with this email or username already exists!") := by
  have hfind : (s.users.find? (fun u => u.email == e || u.username == n)).isSome := by
    rw [List.find?_isSome]
    obtain ⟨u, hu, hor⟩ := hdup
    refine ⟨u, hu, ?_⟩
    cases hor with
    | inl hx => simp [hx]
    | inr hx => simp [hx]
  obtain ⟨w, hw⟩ := Option.isSome_iff_exists.mp hfind
  unfold register
  have hc : (e == "" || n == "" || p == "") = false := by simp [he, hn, hp]
  rw [hc, hw]
  rfl

theorem register_conflict_witness :
    ("a@x.com" : String) ≠ "" ∧ ("bob" : String) ≠ "" ∧ ("pw456" : String) ≠ "" ∧
    (∃ u ∈ (register (initState []) "a@x.com" "alice" "pw123").1.users,
      u.email = "a@x.com" ∨ u.username = "bob") ∧
    register (register (initState []) "a@x.com" "alice" "pw123").1
        "a@x.com" "bob" "pw456" =
      ((register (initState []) "a@x.com" "alice" "pw123").1,
       Response.redirect "register"
         "User with this email or username already exists!") :=
  ⟨by decide, by decide, by decide, by decide,
   register_conflict (register (initState []) "a@x.com" "alice" "pw123").1
     "a@x.com" "bob" "pw456" (by decide) (by decide) (by decide) (by decide)⟩

/-- C7: two failing login attempts with non-empty fields, one naming an
email no user has and one naming an existing user with a failing password
check, produce literally the same result: same unchanged state and the
same generic "Invalid email or password!" form response. -/
theorem login_failure_indistinguishable (s : AppState) (e1 p1 e2 p2 : String)
    (he1 : e1 ≠ "") (hp1 : p1 ≠ "") (he2 : e2 ≠ "") (hp2 : p2 ≠ "")
    (h1 : findByEmail s e1 = none)
    (h2 : ∃ u, findByEmail s e2 = some u ∧
      checkPassword p2 u.password_hash = false) :
    login s e1 p1 = login s e2 p2 ∧
    login s e1 p1 = (s, Response.renderLogin "Invalid email or password!") := by
  obtain ⟨u, hu, hcp⟩ := h2
  unfold findByEmail at h1 hu
  have hc1 : (e1 == "" || p1 == "") = false := by simp [he1, hp1]
  have hc2 : (e2 == "" || p2 == "") = false := by simp [he2, hp2]
  have hl1 : login s e1 p1 = (s, Response.renderLogin "Invalid email or password!") := by
    unfold login
    rw [hc1, h1]
    rfl
  have hl2 : login s e2 p2 = (s, Response.renderLogin "Invalid email or password!") := by
    unfold login
    rw [hc2, hu]
    simp [hcp]
  exact ⟨hl1.trans hl2.symm, hl1⟩

theorem login_failure_indistinguishable_witness :
    ("nobody@x.com" : String) ≠ "" ∧ ("pw123" : String) ≠ "" ∧
    ("a@x.com" : String) ≠ "" ∧ ("wrong" : String) ≠ "" ∧
    findByEmail witState "nobody@x.com" = none ∧
    (∃ u, findByEmail witState "a@x.com" = some u ∧
      checkPassword "wrong" u.password_hash = false) ∧
    (login witState "nobody@x.com" "pw123" = login witState "a@x.com" "wrong" ∧
     login witState "nobody@x.com" "pw123" =
       (witState, Response.renderLogin "Invalid email or password!")) :=
  ⟨by decide, by decide, by decide, by decide, by decide, by decide,
   login_failure_indistinguishable witState "nobody@x.com" "pw123" "a@x.com"
     "wrong" (by decide) (by decide) (by decide) (by decide) (by decide)
     (by decide)⟩

/-- C8: logout is unconditional and idempotent: from any starting state
it clears the session, always answers the same flash-and-redirect home
(it never fails), running it again changes nothing further, and starting
without a session ends in the same observable state as starting with one. -/
theorem logout_idempotent (s : AppState) :
    logout s = ({ s with session := none },
      Response.redirect "index" "You have been logged out.") ∧
    logout ((logout s).1) = logout s ∧
    logout { s with session := none } = logout s := by
  exact ⟨rfl, rfl, rfl⟩

/-- C4 counterexample: in the concrete state staleState the session names
user id 7 which resolves to no User, yet complete_task answers 401
without clearing the session (it still holds 7 afterwards), with an
error body that differs from the no-session case; user_stats likewise
leaves the session in place. -/
theorem stale_session_not_cleared_cex :
    staleState.session = some 7 ∧ findUser staleState 7 = none ∧
    (complete_task staleState surveyBody).1.session = some 7 ∧
    (complete_task staleState surveyBody).2 =
      Response.json (JsonBody.err "User not found") 401 ∧
    (complete_task { staleState with session := none } surveyBody).2 =
      Response.json (JsonBody.err "Not authenticated") 401 ∧
    (user_stats staleState).1.session = some 7 :=
  ⟨rfl, rfl, rfl, rfl, rfl, rfl⟩

/-- C4 amended: when the session names a user id that resolves to no
User record, dashboard unconditionally clears the session and redirects
to login (with its own flash message) and user_stats unconditionally
answers 401 with the body "User not found" — distinct from the
no-session body "Not authenticated" — without clearing the session; the
API route complete_task answers the same uncleared 401 "User not found"
once the body carries a truthy task_type_id resolving to an active task
type (earlier validation errors fire before the user lookup otherwise);
none of the three changes any other state. -/
theorem stale_session_behavior (s : AppState) (uid : Int) (b : ReqBody)
    (hs : s.session = some uid)
    (hu : findUser s uid = none) :
    dashboard s = ({ s with session := none },
      Response.redirect "login" "User not found. Please log in again.") ∧
    user_stats s = (s, Response.json (JsonBody.err "User not found") 401) ∧
    ((pyOptFalsy b.task_type_id = false ∧
      (∃ tt, lookupTaskType s (b.task_type_id.getD JValue.null) = some tt ∧
        tt.is_active = true)) →
      complete_task s b =
        (s, Response.json (JsonBody.err "User not found") 401)) := by
  refine ⟨?_, ?_, ?_⟩
  · unfold dashboard
    rw [hs]
    simp [hu]
  · unfold user_stats
    rw [hs]
    simp [hu]
  · rintro ⟨hf, tt, ht, ha⟩
    unfold complete_task
    rw [hs]
    simp [hf, ht, ha, hu]

theorem stale_session_behavior_witness :
    staleState.session = some 7 ∧ findUser staleState 7 = none ∧
    (dashboard staleState = ({ staleState with session := none },
       Response.redirect "login" "User not found. Please log in again.") ∧
     user_stats staleState =
       (staleState, Response.json (JsonBody.err "User not found") 401) ∧
     ((pyOptFalsy surveyBody.task_type_id = false ∧
       (∃ tt, lookupTaskType staleState (surveyBody.task_type_id.getD JValue.null) =
          some tt ∧ tt.is_active = true)) →
       complete_task staleState surveyBody =
         (staleState, Response.json (JsonBody.err "User not found") 401))) :=
  ⟨rfl, rfl, stale_session_behavior staleState 7 surveyBody rfl rfl⟩

end Mccookies

namespace Mccookies

/-- C1: a successful complete_task call (session resolving to a user,
truthy task_type_id resolving to an active TaskType) appends exactly one
Task row snapshotting the TaskType's cookies_reward, leaves every other
table untouched, and afterwards the user's cookies_earned has grown by
cookies_reward and total_tasks_completed by one; the JSON response
reports the granted reward and the user's new totals. -/
theorem complete_task_success_spec (s : AppState) (b : ReqBody) (uid i : Int)
    (u : UserRec) (tt : TaskTypeRec)
    (hs : s.session = some uid)
    (hb : b.task_type_id = some (JValue.num i)) (hi : i ≠ 0)
    (ht : lookupTaskType s (JValue.num i) = some tt)
    (ha : tt.is_active = true)
    (hu : findUser s uid = some u) :
    complete_task s b =
      ({ s with
          users := s.users.map (fun w => if w.id == u.id then
            { u with
                cookies_earned := u.cookies_earned + tt.cookies_reward,
                total_tasks_completed := u.total_tasks_completed + 1 } else w),
          tasks := s.tasks ++
            [{ id := s.nextTaskId, user_id := u.id, task_type := tt.name,
               task_name := tt.description, task_url := b.task_url.getD "",
               cookies_reward := tt.cookies_reward, status := "completed" }],
          nextTaskId := s.nextTaskId + 1 },
       Response.json (JsonBody.taskOk "Task completed successfully!"
         tt.cookies_reward (u.cookies_earned + tt.cookies_reward)
         (u.total_tasks_completed + 1)) 200) ∧
    findUser (complete_task s b).1 uid =
      some { u with
               cookies_earned := u.cookies_earned + tt.cookies_reward,
               total_tasks_completed := u.total_tasks_completed + 1 } := by
  have key : complete_task s b =
      ({ s with
          users := s.users.map (fun w => if w.id == u.id then
            { u with
                cookies_earned := u.cookies_earned + tt.cookies_reward,
                total_tasks_completed := u.total_tasks_completed + 1 } else w),
          tasks := s.tasks ++
            [{ id := s.nextTaskId, user_id := u.id, task_type := tt.name,
               task_name := tt.description, task_url := b.task_url.getD "",
               cookies_reward := tt.cookies_reward, status := "completed" }],
          nextTaskId := s.nextTaskId + 1 },
       Response.json (JsonBody.taskOk "Task completed successfully!"
         tt.cookies_reward (u.cookies_earned + tt.cookies_reward)
         (u.total_tasks_completed + 1)) 200) := by
    unfold complete_task
    rw [hs, hb]
    simp [pyOptFalsy, pyFalsy, hi, ht, ha, hu]
  refine ⟨key, ?_⟩
  rw [key]
  unfold findUser at hu ⊢
  exact find?_update_user s.users uid u _ hu rfl

theorem complete_task_success_spec_witness :
    regState.session = some 1 ∧
    surveyBody.task_type_id = some (JValue.num 1) ∧ (1 : Int) ≠ 0 ∧
    lookupTaskType regState (JValue.num 1) = some sampleTT ∧
    sampleTT.is_active = true ∧ findUser regState 1 = some aliceRec ∧
    (complete_task regState surveyBody =
      ({ regState with
          users := regState.users.map (fun w => if w.id == aliceRec.id then
            { aliceRec with
                cookies_earned := aliceRec.cookies_earned + sampleTT.cookies_reward,
                total_tasks_completed := aliceRec.total_tasks_completed + 1 } else w),
          tasks := regState.tasks ++
            [{ id := regState.nextTaskId, user_id := aliceRec.id,
               task_type := sampleTT.name, task_name := sampleTT.description,
               task_url := surveyBody.task_url.getD "",
               cookies_reward := sampleTT.cookies_reward, status := "completed" }],
          nextTaskId := regState.nextTaskId + 1 },
       Response.json (JsonBody.taskOk "Task completed successfully!"
         sampleTT.cookies_reward
         (aliceRec.cookies_earned + sampleTT.cookies_reward)
         (aliceRec.total_tasks_completed + 1)) 200) ∧
     findUser (complete_task regState surveyBody).1 1 =
      some { aliceRec with
               cookies_earned := aliceRec.cookies_earned + sampleTT.cookies_reward,
               total_tasks_completed := aliceRec.total_tasks_completed + 1 }) :=
  ⟨rfl, rfl, by decide, rfl, rfl, rfl,
   complete_task_success_spec regState surveyBody 1 1 aliceRec sampleTT rfl rfl
     (by decide) rfl rfl rfl⟩

end Mccookies

namespace Mccookies

theorem find?_map_comm (l : List UserRec) (g : UserRec → UserRec)
    (p : UserRec → Bool) (hp : ∀ u, p (g u) = p u) :
    (l.map g).find? p = (l.find? p).map g := by
  induction l with
  | nil => rfl
  | cons a l ih =>
    rw [List.map_cons, List.find?_cons, List.find?_cons, hp a]
    cases h : p a
    · simpa using ih
    · rfl

@[simp] theorem setActive_users (f : Int → Bool) (s : AppState) :
    (setActive f s).users =
      s.users.map (fun u => { u with is_active := f u.id }) := rfl

@[simp] theorem setActive_tasks (f : Int → Bool) (s : AppState) :
    (setActive f s).tasks = s.tasks := rfl

@[simp] theorem setActive_taskTypes (f : Int → Bool) (s : AppState) :
    (setActive f s).taskTypes = s.taskTypes := rfl

@[simp] theorem setActive_nextUserId (f : Int → Bool) (s : AppState) :
    (setActive f s).nextUserId = s.nextUserId := rfl

@[simp] theorem setActive_nextTaskId (f : Int → Bool) (s : AppState) :
    (setActive f s).nextTaskId = s.nextTaskId := rfl

@[simp] theorem setActive_session (f : Int → Bool) (s : AppState) :
    (setActive f s).session = s.session := rfl

theorem lookupTaskType_setActive (f : Int → Bool) (s : AppState) (v : JValue) :
    lookupTaskType (setActive f s) v = lookupTaskType s v := by
  cases v <;> rfl

theorem findUser_setActive (f : Int → Bool) (s : AppState) (uid : Int) :
    findUser (setActive f s) uid =
      (findUser s uid).map (fun u => { u with is_active := f u.id }) := by
  unfold findUser
  rw [setActive_users]
  exact find?_map_comm s.users (fun u => { u with is_active := f u.id })
    (fun u => u.id == uid) (fun u => rfl)

theorem login_setActive (f : Int → Bool) (s : AppState) (e p : String) :
    login (setActive f s) e p =
      (setActive f (login s e p).1, (login s e p).2) := by
  unfold login
  by_cases hc : (e == "" || p == "") = true
  · simp only [if_pos hc]
  · simp only [if_neg hc, setActive_users]
    rw [find?_map_comm s.users (fun u => { u with is_active := f u.id })
      (fun u => u.email == e) (fun u => rfl)]
    cases hfind : s.users.find? (fun u => u.email == e) with
    | none => rfl
    | some u =>
      simp only [Option.map_some']
      by_cases hcp : checkPassword p u.password_hash = true
      · simp only [hcp]
        rfl
      · simp only [hcp]
        rfl

end Mccookies

namespace Mccookies

theorem complete_task_setActive (f : Int → Bool) (s : AppState) (b : ReqBody) :
    complete_task (setActive f s) b =
      (setActive f (complete_task s b).1, (complete_task s b).2) := by
  unfold complete_task
  cases hsess : s.session with
  | none => simp only [setActive_session, hsess]
  | some uid =>
    simp only [setActive_session, hsess]
    by_cases hf : pyOptFalsy b.task_type_id = true
    · simp only [hf]
      rfl
    · simp only [Bool.not_eq_true] at hf
      simp only [hf, lookupTaskType_setActive]
      cases hlook : lookupTaskType s (b.task_type_id.getD JValue.null) with
      | none => rfl
      | some tt =>
        by_cases hact : tt.is_active = true
        · simp only [hact, findUser_setActive]
          cases hfu : findUser s uid with
          | none => rfl
          | some u =>
            simp only [Option.map_some']
            simp [setActive]
            intro a _
            by_cases hw : a.id = u.id
            · simp [hw]
            · simp [hw]
        · simp only [Bool.not_eq_true] at hact
          simp only [hact]
          rfl

end Mccookies

namespace Mccookies

theorem user_stats_setActive (f : Int → Bool) (s : AppState) :
    user_stats (setActive f s) =
      (setActive f (user_stats s).1, (user_stats s).2) := by
  unfold user_stats
  cases hsess : s.session with
  | none => simp only [setActive_session, hsess]
  | some uid =>
    simp only [setActive_session, hsess, findUser_setActive]
    cases hfu : findUser s uid with
    | none => rfl
    | some u => rfl

theorem dashboard_setActive (f : Int → Bool) (s : AppState) :
    dashboard (setActive f s) =
      (setActive f (dashboard s).1, mapRespActive f (dashboard s).2) := by
  unfold dashboard
  cases hsess : s.session with
  | none => simp only [setActive_session, hsess]; rfl
  | some uid =>
    simp only [setActive_session, hsess, findUser_setActive]
    cases hfu : findUser s uid with
    | none => rfl
    | some u => rfl

/-- C10 counterexample: take two states identical except that alice's
is_active flag is flipped (every column of every other table is equal).
The dashboard handler produces different responses for them, because it
forwards the full user record, is_active included, to the template. -/
theorem dashboard_is_active_cex :
    (setActive (fun _ => false) witState).users =
      witState.users.map (fun u => { u with is_active := false }) ∧
    (setActive (fun _ => false) witState).tasks = witState.tasks ∧
    (setActive (fun _ => false) witState).taskTypes = witState.taskTypes ∧
    (setActive (fun _ => false) witState).session = witState.session ∧
    (dashboard (setActive (fun _ => false) witState)).2 ≠
      (dashboard witState).2 :=
  ⟨rfl, rfl, rfl, rfl, by decide⟩

/-- C10 amended: no operation branches on User.is_active.  For any
reassignment of the flags (states identical except for is_active), login,
complete_task and user_stats produce identical responses and identical
state changes up to the flag relabeling — so deactivating a user blocks
neither login nor reward accrual — and dashboard performs the identical
control flow and state changes, but its response forwards the user record
to the template, differing in exactly the is_active field of that record. -/
theorem ops_ignore_is_active (f : Int → Bool) (s : AppState) (e p : String)
    (b : ReqBody) :
    login (setActive f s) e p =
      (setActive f (login s e p).1, (login s e p).2) ∧
    complete_task (setActive f s) b =
      (setActive f (complete_task s b).1, (complete_task s b).2) ∧
    user_stats (setActive f s) =
      (setActive f (user_stats s).1, (user_stats s).2) ∧
    dashboard (setActive f s) =
      (setActive f (dashboard s).1, mapRespActive f (dashboard s).2) :=
  ⟨login_setActive f s e p, complete_task_setActive f s b,
   user_stats_setActive f s, dashboard_setActive f s⟩

end Mccookies

namespace Mccookies

theorem goodState_init (tts : List TaskTypeRec) : GoodState (initState tts) := by
  refine ⟨?_, ?_, ?_, ?_⟩ <;> simp [initState]

theorem goodState_logout (s : AppState) (h : GoodState s) :
    GoodState (logout s).1 := h

theorem goodState_login (s : AppState) (e p : String) (h : GoodState s) :
    GoodState (login s e p).1 := by
  unfold login
  by_cases hc : (e == "" || p == "") = true
  · simp only [if_pos hc]
    exact h
  · simp only [if_neg hc]
    cases hfind : s.users.find? (fun u => u.email == e) with
    | none => exact h
    | some u =>
      by_cases hcp : checkPassword p u.password_hash = true
      · simp only [hcp]
        exact h
      · simp only [hcp]
        exact h

theorem goodState_register (s : AppState) (e n p : String) (h : GoodState s) :
    GoodState (register s e n p).1 := by
  unfold register
  by_cases hc : (e == "" || n == "" || p == "") = true
  · simp only [if_pos hc]
    exact h
  · simp only [if_neg hc]
    cases hfind : s.users.find? (fun u => u.email == e || u.username == n) with
    | some w => exact h
    | none =>
      obtain ⟨h1, h2, h3, h4⟩ := h
      refine ⟨?_, ?_, ?_, ?_⟩
      · intro u hu
        simp only [List.mem_append, List.mem_singleton] at hu
        cases hu with
        | inl hol => calc u.id < s.nextUserId := h1 u hol
            _ < s.nextUserId + 1 := by omega
        | inr hnew => rw [hnew]; change s.nextUserId < s.nextUserId + 1; omega
      · rw [List.map_append, List.nodup_append]
        refine ⟨h2, List.nodup_singleton _, ?_⟩
        intro x hx hx2
        simp only [List.map_cons, List.map_nil, List.mem_singleton] at hx2
        obtain ⟨v, hv, hvx⟩ := List.mem_map.mp hx
        have : v.id < s.nextUserId := h1 v hv
        rw [hvx] at this
        rw [hx2] at this
        exact absurd this (by omega)
      · intro t ht
        calc t.user_id < s.nextUserId := h3 t ht
          _ < s.nextUserId + 1 := by omega
      · intro u hu
        simp only [List.mem_append, List.mem_singleton] at hu
        cases hu with
        | inl hol => exact h4 u hol
        | inr hnew =>
          rw [hnew]
          change (0 : Int) = sumRewards s.tasks s.nextUserId
          refine (sumRewards_eq_zero s.tasks s.nextUserId ?_).symm
          intro t ht
          exact Int.ne_of_lt (h3 t ht)

end Mccookies

namespace Mccookies

theorem goodState_complete_task (s : AppState) (b : ReqBody) (h : GoodState s) :
    GoodState (complete_task s b).1 := by
  cases hsess : s.session with
  | none =>
    have hkey : (complete_task s b).1 = s := by
      unfold complete_task
      rw [hsess]
    rw [hkey]
    exact h
  | some uid =>
    by_cases hf : pyOptFalsy b.task_type_id = true
    · have hkey : (complete_task s b).1 = s := by
        unfold complete_task
        rw [hsess]
        simp [hf]
      rw [hkey]
      exact h
    · simp only [Bool.not_eq_true] at hf
      cases hlook : lookupTaskType s (b.task_type_id.getD JValue.null) with
      | none =>
        have hkey : (complete_task s b).1 = s := by
          unfold complete_task
          rw [hsess]
          simp [hf, hlook]
        rw [hkey]
        exact h
      | some tt =>
        by_cases hact : tt.is_active = true
        · cases hfu : findUser s uid with
          | none =>
            have hkey : (complete_task s b).1 = s := by
              unfold complete_task
              rw [hsess]
              simp [hf, hlook, hact, hfu]
            rw [hkey]
            exact h
          | some u =>
            have hkey : (complete_task s b).1 =
                { s with
                    users := s.users.map (fun w =>
                      if w.id == u.id then
                        { u with
                            cookies_earned := u.cookies_earned + tt.cookies_reward,
                            total_tasks_completed := u.total_tasks_completed + 1 }
                      else w),
                    tasks := s.tasks ++
                      [{ id := s.nextTaskId, user_id := u.id, task_type := tt.name,
                         task_name := tt.description, task_url := b.task_url.getD "",
                         cookies_reward := tt.cookies_reward, status := "completed" }],
                    nextTaskId := s.nextTaskId + 1 } := by
              unfold complete_task
              rw [hsess]
              simp [hf, hlook, hact, hfu]
            rw [hkey]
            unfold findUser at hfu
            have humem : u ∈ s.users := List.mem_of_find?_eq_some hfu
            have huid : u.id < s.nextUserId := h.1 u humem
            obtain ⟨h1, h2, h3, h4⟩ := h
            refine ⟨?_, ?_, ?_, ?_⟩
            · intro w hw
              obtain ⟨x, hx, hxw⟩ := List.mem_map.mp hw
              rw [← hxw]
              by_cases hxu : (x.id == u.id) = true
              · rw [if_pos hxu]
                exact huid
              · rw [if_neg (by simpa using hxu)]
                exact h1 x hx
            · show ((s.users.map (fun w =>
                  if w.id == u.id then
                    { u with
                        cookies_earned := u.cookies_earned + tt.cookies_reward,
                        total_tasks_completed := u.total_tasks_completed + 1 }
                  else w)).map UserRec.id).Nodup
              have hids : (s.users.map (fun w =>
                  if w.id == u.id then
                    { u with
                        cookies_earned := u.cookies_earned + tt.cookies_reward,
                        total_tasks_completed := u.total_tasks_completed + 1 }
                  else w)).map UserRec.id = s.users.map UserRec.id := by
                rw [List.map_map]
                apply List.map_congr_left
                intro x _
                by_cases hxu : x.id = u.id
                · simp [Function.comp, hxu]
                · simp [Function.comp, hxu]
              rw [hids]
              exact h2
            · intro t ht
              show t.user_id < s.nextUserId
              have ht2 : t ∈ s.tasks ++
                  [{ id := s.nextTaskId, user_id := u.id, task_type := tt.name,
                     task_name := tt.description, task_url := b.task_url.getD "",
                     cookies_reward := tt.cookies_reward, status := "completed" }] := ht
              simp only [List.mem_append, List.mem_singleton] at ht2
              cases ht2 with
              | inl hol => exact h3 t hol
              | inr hnew =>
                rw [hnew]
                exact huid
            · intro w hw
              obtain ⟨x, hx, hxw⟩ := List.mem_map.mp hw
              rw [← hxw]
              by_cases hxu : (x.id == u.id) = true
              · have hxid : x.id = u.id := by simpa using hxu
                have hxeq : x = u := List.inj_on_of_nodup_map h2 hx humem hxid
                rw [if_pos hxu]
                show u.cookies_earned + tt.cookies_reward =
                  sumRewards (s.tasks ++
                    [{ id := s.nextTaskId, user_id := u.id, task_type := tt.name,
                       task_name := tt.description, task_url := b.task_url.getD "",
                       cookies_reward := tt.cookies_reward, status := "completed" }]) u.id
                rw [sumRewards_append]
                have := h4 u humem
                simp only [if_pos rfl]
                show u.cookies_earned + tt.cookies_reward =
                  sumRewards s.tasks u.id + tt.cookies_reward
                omega
              · have hxid : x.id ≠ u.id := by simpa using hxu
                rw [if_neg (by simpa using hxu)]
                show x.cookies_earned =
                  sumRewards (s.tasks ++
                    [{ id := s.nextTaskId, user_id := u.id, task_type := tt.name,
                       task_name := tt.description, task_url := b.task_url.getD "",
                       cookies_reward := tt.cookies_reward, status := "completed" }]) x.id
                rw [sumRewards_append]
                rw [if_neg (fun e => hxid e.symm)]
                have := h4 x hx
                omega
        · have hkey : (complete_task s b).1 = s := by
            unfold complete_task
            rw [hsess]
            simp only [Bool.not_eq_true] at hact
            simp [hf, hlook, hact]
          rw [hkey]
          exact h

theorem goodState_applyOp (s : AppState) (op : Op) (h : GoodState s) :
    GoodState (applyOp s op) := by
  cases op with
  | register e n p => exact goodState_register s e n p h
  | login e p => exact goodState_login s e p h
  | completeTask b => exact goodState_complete_task s b h
  | logout => exact goodState_logout s h

theorem reachable_goodState (s : AppState) (h : Reachable s) : GoodState s := by
  induction h with
  | init tts => exact goodState_init tts
  | step t op ht iht => exact goodState_applyOp t op iht

/-- C2: in every state reachable from a freshly bootstrapped store by any
sequence of register, login, complete_task and logout operations, every
user's cookies_earned equals the sum of cookies_reward over the Task rows
that user owns. -/
theorem reachable_cookies_invariant (s : AppState) (h : Reachable s) :
    ∀ u ∈ s.users, u.cookies_earned = sumRewards s.tasks u.id :=
  (reachable_goodState s h).2.2.2

theorem reachable_cookies_invariant_witness :
    Reachable witState ∧
    ∀ u ∈ witState.users, u.cookies_earned = sumRewards witState.tasks u.id :=
  ⟨Reachable.step _ _ (Reachable.step _ _ (Reachable.init [sampleTT])),
   reachable_cookies_invariant witState
     (Reachable.step _ _ (Reachable.step _ _ (Reachable.init [sampleTT])))⟩

end Mccookies
